import Mathlib

/-!
Verification development for the radiology DApp backend
(`backend/app` routers + `shared/utils/fhir_converter.py`).

The Python source is shallowly embedded: pure functions become Lean
functions, the SQLAlchemy store becomes explicit state passing over
lists of rows, Python dictionaries become a `Json` value, and code
that may raise becomes `Except` / `Option`. Timestamps are kept as the
ISO strings the code ultimately serializes (`.isoformat()`), since no
claim inspects their structure.
-/

namespace RadiologyDapp

/-! ### A model of the Python dict / JSON values built by the converter -/

/-- Embedding of the Python dict/list/str/int/bool values that
`fhir_converter.py` builds and inspects. Objects are association
lists; the builders below construct each key at most once, matching
Python dict semantics. -/
inductive Json where
  | null
  | bool (b : Bool)
  | num (n : Int)
  | str (s : String)
  | arr (elems : List Json)
  | obj (members : List (String × Json))

/-- Lookup of a key in the member list of an object (first match; the
builders never repeat a key, so this agrees with Python dict lookup). -/
def lookupKey : List (String × Json) → String → Option Json
  | [], _ => none
  | (k, v) :: rest, key => if k == key then some v else lookupKey rest key

/-- Embedding of `d.get(key)` on a Python dict: `none` when the key is
absent or the value is not an object. -/
def Json.get? : Json → String → Option Json
  | .obj kvs, key => lookupKey kvs key
  | _, _ => none

/-- Embedding of `key in d` on a Python dict. -/
def Json.hasKey (j : Json) (key : String) : Bool :=
  (j.get? key).isSome

/-! ### Database rows (`backend/app/database.py`) and schemas -/

/-- Row of the `patients` table (model `Patient`). Identity fields are
the stored hashes; `created_at` is kept as its ISO string. -/
structure Patient where
  id : Nat
  patient_hash : String
  first_name_hash : Option String
  last_name_hash : Option String
  birth_date_hash : Option String
  created_at : String

/-- Row of the `users` table (model `User`), the practitioner record. -/
structure User where
  id : Nat
  username : String
  email : String
  role : String
  wallet_address : Option String
  is_active : Bool
  created_at : String
  updated_at : String

/-- Row of the `procedures` table (model `Procedure`). Nullable columns
are `Option`; `blockchain_id` and `blockchain_tx_hash` are set only by
the ledger step of `create_procedure`. -/
structure Procedure where
  id : Nat
  blockchain_id : Option Nat
  patient_hash : String
  practitioner_id : Nat
  procedure_type : String
  duration : Int
  consent_hash : Option String
  metadata : Option String
  blockchain_tx_hash : Option String
  created_at : String
  updated_at : String

/-- Truthiness of an optional string column, as Python `if x:` sees it:
`None` and the empty string are falsy. -/
def isTruthy : Option String → Bool
  | none => false
  | some s => s != ""

/-! ### The SNOMED catalog (`fhir_converter.py`, `SNOMED_PROCEDURE_CODES`) -/

/-- One coded-concept triple of the catalog. -/
structure SnomedCode where
  code : String
  display : String
  system : String
deriving DecidableEq

/-- The SNOMED system URI shared by every catalog entry. -/
def sctSystem : String := "http://snomed.info/sct"

/-- Embedding of the `SNOMED_PROCEDURE_CODES` dict, in source order. -/
def SNOMED_PROCEDURE_CODES : List (String × SnomedCode) :=
  [ ("embolisation", ⟨"433144002", "Embolization procedure", sctSystem⟩),
    ("ponction", ⟨"261190007", "Percutaneous puncture", sctSystem⟩),
    ("stent", ⟨"384692006", "Insertion of stent", sctSystem⟩),
    ("angioplastie", ⟨"372024009", "Angioplasty", sctSystem⟩),
    ("biopsie", ⟨"387713003", "Surgical biopsy", sctSystem⟩),
    ("drainage", ⟨"174250002", "Drainage procedure", sctSystem⟩),
    ("ablation", ⟨"713295009", "Ablation", sctSystem⟩),
    ("radiofréquence", ⟨"173666000", "Radiofrequency ablation", sctSystem⟩),
    ("cryothérapie", ⟨"173665001", "Cryotherapy", sctSystem⟩),
    ("chimioembolisation", ⟨"430193006", "Chemoembolization", sctSystem⟩) ]

/-- The fixed default triple used by both `get_snomed_code` and the
inline lookup in `create_fhir_claim`. -/
def defaultSnomedCode : SnomedCode :=
  ⟨"261190007", "Percutaneous puncture", sctSystem⟩

/-- Embedding of Python `str.lower` on one character, restricted to the
characters occurring in this codebase: ASCII letters plus the accented
uppercase letters whose lowercase forms appear in the catalog keys.
Other characters are returned unchanged. -/
def pyCharLower (c : Char) : Char :=
  if 65 ≤ c.toNat ∧ c.toNat ≤ 90 then
    Char.ofNat (c.toNat + 32)
  else if c = 'É' then 'é'
  else if c = 'È' then 'è'
  else if c = 'Ç' then 'ç'
  else c

/-- Embedding of Python `s.lower()` (per-character, see `pyCharLower`). -/
def pyLower (s : String) : String :=
  ⟨s.data.map pyCharLower⟩

/-- Embedding of `SNOMED_PROCEDURE_CODES.get(key)` (no default). -/
def snomedGet (key : String) : Option SnomedCode :=
  (SNOMED_PROCEDURE_CODES.find? (fun kv => kv.1 == key)).map (fun kv => kv.2)

/-- Embedding of `get_snomed_code`: dict `.get` with the fixed default,
after lowercasing the requested procedure type. -/
def get_snomed_code (procedure_type : String) : SnomedCode :=
  (snomedGet (pyLower procedure_type)).getD defaultSnomedCode

/-! ### `create_fhir_claim` (`fhir_converter.py`, lines 64-183) -/

/-- Embedding of `create_fhir_claim`. The two post-construction dict
mutations of the source (adding `meta.extension` when
`procedure.blockchain_tx_hash` is truthy, and `supportingInfo` when
`procedure.consent_hash` is truthy) are modelled by conditionally
including those members at the position they end up in. -/
def create_fhir_claim (procedure : Procedure) (patient : Patient)
    (practitioner : User) : Json :=
  let snomed := (snomedGet (pyLower procedure.procedure_type)).getD defaultSnomedCode
  Json.obj
    ([ ("resourceType", Json.str "Claim"),
       ("id", Json.str ("claim-" ++ toString procedure.id)),
       ("status", Json.str "active"),
       ("type", Json.obj
         [("coding", Json.arr [Json.obj
           [("system", Json.str "http://terminology.hl7.org/CodeSystem/claim-type"),
            ("code", Json.str "institutional"),
            ("display", Json.str "Institutional")]])]),
       ("use", Json.str "claim"),
       ("patient", Json.obj
         [("reference", Json.str ("Patient/" ++ patient.patient_hash)),
          ("display", Json.str ("Patient " ++ patient.patient_hash.take 8 ++ "..."))]),
       ("created", Json.str procedure.created_at),
       ("provider", Json.obj
         [("reference", Json.str ("Practitioner/" ++ toString practitioner.id)),
          ("display", Json.str practitioner.username)]),
       ("priority", Json.obj
         [("coding", Json.arr [Json.obj
           [("system", Json.str "http://terminology.hl7.org/CodeSystem/processpriority"),
            ("code", Json.str "normal"),
            ("display", Json.str "Normal")]])]),
       ("procedure", Json.arr [Json.obj
         [("sequence", Json.num 1),
          ("procedureCodeableConcept", Json.obj
            [("coding", Json.arr [Json.obj
              [("system", Json.str snomed.system),
               ("code", Json.str snomed.code),
               ("display", Json.str snomed.display)]]),
             ("text", Json.str procedure.procedure_type)]),
          ("date", Json.str procedure.created_at)]]),
       ("insurance", Json.arr [Json.obj
         [("sequence", Json.num 1),
          ("focal", Json.bool true),
          ("coverage", Json.obj
            [("reference", Json.str ("Coverage/coverage-" ++ patient.patient_hash.take 8))])]]),
       ("item", Json.arr [Json.obj
         [("sequence", Json.num 1),
          ("careTeamSequence", Json.arr [Json.num 1]),
          ("productOrService", Json.obj
            [("coding", Json.arr [Json.obj
              [("system", Json.str snomed.system),
               ("code", Json.str snomed.code),
               ("display", Json.str snomed.display)]])]),
          ("servicedDate", Json.str procedure.created_at),
          ("quantity", Json.obj
            [("value", Json.num 1), ("unit", Json.str "procedure")])]]),
       ("total", Json.obj
         [("currency", Json.str "EUR"), ("value", Json.num 0)]),
       ("meta", Json.obj
         ([ ("versionId", Json.str "1"),
            ("lastUpdated", Json.str procedure.updated_at),
            ("source", Json.str "#radiology-dapp") ] ++
          (if isTruthy procedure.blockchain_tx_hash then
            [("extension", Json.arr [Json.obj
              [("url", Json.str "http://radiology-dapp.com/blockchain-transaction"),
               ("valueString", Json.str (procedure.blockchain_tx_hash.getD ""))]])]
          else []))) ] ++
     (if isTruthy procedure.consent_hash then
       [("supportingInfo", Json.arr [Json.obj
         [("sequence", Json.num 1),
          ("category", Json.obj
            [("coding", Json.arr [Json.obj
              [("system", Json.str "http://terminology.hl7.org/CodeSystem/claim-informationcategory"),
               ("code", Json.str "consent"),
               ("display", Json.str "Consent")]])]),
          ("valueString", Json.str (procedure.consent_hash.getD ""))]])]
     else []))

/-! ### `validate_fhir_claim` (`fhir_converter.py`, lines 364-405) -/

/-- The validation error messages appended by `validate_fhir_claim`,
as symbolic constructors (the Python code appends formatted strings;
only identity and count of the errors matter to correctness). -/
inductive VErr where
  | missingField (f : String)
  | badResourceType
  | badStatus
  | missingSequence (i : Nat)
  | missingConcept (i : Nat)
deriving DecidableEq

/-- Result dict of `validate_fhir_claim`. -/
structure VResult where
  valid : Bool
  errors : List VErr
  warnings : List VErr
deriving DecidableEq

/-- Required top-level fields checked by `validate_fhir_claim`. -/
def requiredClaimFields : List String :=
  ["resourceType", "id", "status", "type", "patient", "provider"]

/-- Allowed values of the `status` field. -/
def validClaimStatuses : List String :=
  ["active", "cancelled", "draft", "entered-in-error"]

/-- The per-entry loop over `claim["procedure"]`: for each entry, in
order, an error when `sequence` is missing and another when
`procedureCodeableConcept` is missing. -/
def checkProcedureEntries : List Json → Nat → List VErr
  | [], _ => []
  | p :: rest, i =>
    (if p.hasKey "sequence" then [] else [VErr.missingSequence i]) ++
    (if p.hasKey "procedureCodeableConcept" then [] else [VErr.missingConcept i]) ++
    checkProcedureEntries rest (i + 1)

/-- Embedding of `validate_fhir_claim`. Returns `none` when the input
is not a dict, or when a present `procedure` value is not a list (the
Python code would then fail on `field in claim` or on iterating
`claim["procedure"]`); every document the theorems touch is inside the
modelled domain. Errors accumulate in source order: the required-field
loop, the `resourceType` check, the `status` check, then the procedure
entries. -/
def validate_fhir_claim (claim : Json) : Option VResult :=
  match claim with
  | Json.obj _ =>
    let e1 := requiredClaimFields.filterMap
      (fun f => if claim.hasKey f then none else some (VErr.missingField f))
    let e2 := match claim.get? "resourceType" with
      | some (Json.str s) => if s == "Claim" then [] else [VErr.badResourceType]
      | _ => [VErr.badResourceType]
    let e3 := match claim.get? "status" with
      | some (Json.str s) => if validClaimStatuses.contains s then [] else [VErr.badStatus]
      | _ => [VErr.badStatus]
    match claim.get? "procedure" with
    | none =>
      let errors := e1 ++ e2 ++ e3
      some ⟨errors.isEmpty, errors, []⟩
    | some (Json.arr ps) =>
      let errors := e1 ++ e2 ++ e3 ++ checkProcedureEntries ps 0
      some ⟨errors.isEmpty, errors, []⟩
    | some _ => none
  | _ => none

/-! ### Ledger client (`backend/app/utils/blockchain.py`) -/

/-- The exceptions `init_web3` raises: `valueError` for a missing
`CONTRACT_ADDRESS`, `connectionError` for an unreachable endpoint. -/
inductive InitError where
  | valueError
  | connectionError
deriving DecidableEq

/-- The environment `init_web3` reads: the optional `CONTRACT_ADDRESS`
variable and whether `web3.is_connected()` holds for the configured
endpoint. -/
structure W3Env where
  contract_address : Option String
  connected : Bool

/-- Embedding of `init_web3`: raises `ValueError` when no contract
address is configured, `ConnectionError` when the endpoint is
unreachable, and otherwise yields the contract handle (identified by
its address; the ABI-file fallback never raises). -/
def init_web3 (env : W3Env) : Except InitError String :=
  match env.contract_address with
  | none => Except.error InitError.valueError
  | some addr =>
    if env.connected then Except.ok addr
    else Except.error InitError.connectionError

/-- The receipt fields read from a successfully mined transaction. -/
structure TxReceipt where
  tx_hash : String
  block_number : Nat
  gas_used : Nat

/-- The two dict shapes `record_procedure_on_blockchain` returns:
`success` with the receipt fields, or `failure` with `str(e)` for the
exception caught inside its `try` block. -/
inductive BcResult where
  | success (tx_hash : String) (block_number : Nat) (gas_used : Nat)
  | failure (error : String)
deriving DecidableEq

/-- Outcome of the build / estimate / sign / send / wait pipeline inside
the `try` block: either the receipt, or the message of whichever
exception the pipeline raised. -/
def runTx : Except String TxReceipt → BcResult
  | Except.ok r => BcResult.success r.tx_hash r.block_number r.gas_used
  | Except.error m => BcResult.failure m

/-- Embedding of `record_procedure_on_blockchain`. The transaction
arguments do not influence control flow; the nondeterministic RPC
interactions inside the `try` block are abstracted by `pipeline`. The
guard `if contract is None: init_web3()` runs BEFORE the `try` block,
so an `init_web3` exception propagates out (`Except.error`); everything
raised inside the `try` is caught and becomes a failure dict. -/
def record_procedure_on_blockchain (contract : Option String) (env : W3Env)
    (patient_hash : String) (procedure_type : String) (duration : Int)
    (consent_hash : String) (metadata : String) (private_key : String)
    (pipeline : Except String TxReceipt) : Except InitError BcResult :=
  match contract with
  | some _ => Except.ok (runTx pipeline)
  | none =>
    match init_web3 env with
    | Except.error e => Except.error e
    | Except.ok _ => Except.ok (runTx pipeline)

/-! ### Procedure router (`backend/app/routers/procedures.py`) -/

/-- The supported vocabulary (`PROCEDURE_TYPES` in
`backend/app/schemas/procedure.py`). -/
def PROCEDURE_TYPES : List String :=
  [ "embolisation", "ponction", "stent", "angioplastie", "biopsie",
    "drainage", "ablation", "radiofréquence", "cryothérapie",
    "chimioembolisation" ]

/-- Request body of `POST /procedures` (schema `ProcedureCreate`);
`consent_hash` is a required string there, `metadata` optional. -/
structure ProcedureCreate where
  patient_hash : String
  procedure_type : String
  duration : Int
  consent_hash : String
  metadata : Option String

/-- The two `HTTPException` values raised by `create_procedure` before
any write: 400 for an unsupported procedure type, 404 for an unknown
patient hash. -/
inductive CreateError where
  | invalidProcedureType
  | patientNotFound
deriving DecidableEq

/-- HTTP status of each `CreateError`. -/
def CreateError.status : CreateError → Nat
  | CreateError.invalidProcedureType => 400
  | CreateError.patientNotFound => 404

/-- The slice of database state `create_procedure` touches: the patient
and procedure tables plus the autoincrement counter for procedure ids. -/
structure DB where
  patients : List Patient
  procedures : List Procedure
  next_id : Nat

/-- Embedding of the `create_procedure` endpoint. Checks run in source
order (procedure type, then patient existence) before any write; the
locally persisted row is then appended; the ledger step runs only when
`PRACTITIONER_PRIVATE_KEY` is set, and its outcome is the
`record_procedure_on_blockchain` result (`Except.error` standing for an
exception escaping that call, which the surrounding `try/except`
catches). On ledger success the row is stamped with
`blockchain_id = local id` and the transaction hash. -/
def create_procedure (db : DB) (req : ProcedureCreate) (userId : Nat)
    (private_key : Option String) (now : String)
    (ledgerOutcome : Except InitError BcResult) :
    DB × Except CreateError Procedure :=
  if ¬ PROCEDURE_TYPES.contains req.procedure_type then
    (db, Except.error CreateError.invalidProcedureType)
  else
    match db.patients.find? (fun p => p.patient_hash == req.patient_hash) with
    | none => (db, Except.error CreateError.patientNotFound)
    | some _ =>
      let row : Procedure :=
        { id := db.next_id, blockchain_id := none,
          patient_hash := req.patient_hash, practitioner_id := userId,
          procedure_type := req.procedure_type, duration := req.duration,
          consent_hash := some req.consent_hash, metadata := req.metadata,
          blockchain_tx_hash := none, created_at := now, updated_at := now }
      let db1 : DB :=
        { db with procedures := db.procedures ++ [row], next_id := db.next_id + 1 }
      match private_key with
      | none => (db1, Except.ok row)
      | some _ =>
        match ledgerOutcome with
        | Except.error _ => (db1, Except.ok row)
        | Except.ok (BcResult.failure _) => (db1, Except.ok row)
        | Except.ok (BcResult.success h _ _) =>
          let row2 : Procedure :=
            { row with blockchain_id := some row.id, blockchain_tx_hash := some h }
          ({ db with procedures := db.procedures ++ [row2], next_id := db.next_id + 1 },
           Except.ok row2)

/-! ### FHIR resource store (`backend/app/routers/fhir.py`) -/

/-- Row of the `fhir_resources` table (model `FHIRResource`); the
payload is kept as the `Json` value that `json.dumps` serializes. -/
structure FHIRResource where
  resource_type : String
  resource_id : String
  fhir_data : Json

/-- The persistence step of `generate_fhir_claim` (fhir.py lines 44-52):
`db.add` of a freshly constructed `FHIRResource` row, i.e. an append to
the table — there is no lookup of an existing row for the key. -/
def store_generated_claim (reg : List FHIRResource) (procedure_id : Nat)
    (claim : Json) : List FHIRResource :=
  reg ++ [{ resource_type := "Claim",
            resource_id := "claim-" ++ toString procedure_id,
            fhir_data := claim }]

/-- The rows stored under one `(resource_type, resource_id)` key. -/
def resourcesWithKey (reg : List FHIRResource) (t i : String) :
    List FHIRResource :=
  reg.filter (fun r => r.resource_type == t && r.resource_id == i)

/-- Embedding of the lookup in `GET /fhir/resources/{resource_id}`:
`filter(...).first()`, which under insertion-ordered storage returns
the EARLIEST row with that `resource_id`. -/
def get_fhir_resource (reg : List FHIRResource) (i : String) :
    Option FHIRResource :=
  reg.find? (fun r => r.resource_id == i)

/-! ### Claim-document observers used by the theorems -/

/-- The `meta.extension` member of a claim, when present. -/
def metaExtensionValue (c : Json) : Option Json :=
  (c.get? "meta").bind (fun m => m.get? "extension")

/-- The `valueString` of the single blockchain provenance extension
entry, when the claim carries one. -/
def metaExtensionValueString (c : Json) : Option String :=
  match metaExtensionValue c with
  | some (Json.arr [e]) =>
    match e.get? "valueString" with
    | some (Json.str s) => some s
    | _ => none
  | _ => none

/-- The `valueString` of the single `supportingInfo` entry, when the
claim carries one. -/
def supportingInfoValueString (c : Json) : Option String :=
  match c.get? "supportingInfo" with
  | some (Json.arr [e]) =>
    match e.get? "valueString" with
    | some (Json.str s) => some s
    | _ => none
  | _ => none

/-- The first coding object of the first procedure entry of a claim. -/
def firstProcedureCoding (c : Json) : Option Json :=
  match c.get? "procedure" with
  | some (Json.arr (p :: _)) =>
    match p.get? "procedureCodeableConcept" with
    | some cc =>
      match cc.get? "coding" with
      | some (Json.arr (k :: _)) => some k
      | _ => none
    | _ => none
  | _ => none

/-- The correlation invariant on a procedure row: a non-null
`blockchain_id` equals the local `id`. -/
def bcIdInvariant (r : Procedure) : Prop :=
  ∀ b, r.blockchain_id = some b → b = r.id

/-- The claim document of the scenario: procedure type `stent`,
duration 45, no consent hash, no ledger fields set. -/
def stentScenarioClaim : Json :=
  create_fhir_claim
    ⟨1, none, "abcdef1234567890", 7, "stent", 45, none, none, none,
     "2024-01-01T10:00:00", "2024-01-01T10:00:00"⟩
    ⟨1, "abcdef1234567890", none, none, none, "2024-01-01T09:00:00"⟩
    ⟨7, "dr_house", "dr@example.com", "practitioner", none, true,
     "2023-01-01T00:00:00", "2023-01-01T00:00:00"⟩

/-! ## Theorems -/

/-- Helper: every run of `create_procedure` either aborts returning the
state unchanged, or appends exactly one new row, which carries either
no ledger fields or a `blockchain_id` equal to its own local id. -/
theorem create_procedure_cases
    (db : DB) (req : ProcedureCreate) (userId : Nat)
    (private_key : Option String) (now : String)
    (outcome : Except InitError BcResult) :
    (∃ e, create_procedure db req userId private_key now outcome = (db, Except.error e)) ∨
    (∃ row : Procedure, row.blockchain_id = none ∧ row.blockchain_tx_hash = none ∧
      create_procedure db req userId private_key now outcome =
        ({ db with procedures := db.procedures ++ [row], next_id := db.next_id + 1 },
          Except.ok row)) ∨
    (∃ row : Procedure, row.blockchain_id = some row.id ∧
      create_procedure db req userId private_key now outcome =
        ({ db with procedures := db.procedures ++ [row], next_id := db.next_id + 1 },
          Except.ok row)) := by
  unfold create_procedure
  split
  · exact Or.inl ⟨_, rfl⟩
  · split
    · exact Or.inl ⟨_, rfl⟩
    · split
      · exact Or.inr (Or.inl ⟨_, rfl, rfl, rfl⟩)
      · split
        · exact Or.inr (Or.inl ⟨_, rfl, rfl, rfl⟩)
        · exact Or.inr (Or.inl ⟨_, rfl, rfl, rfl⟩)
        · exact Or.inr (Or.inr ⟨_, rfl, rfl⟩)

/-- C1 counterexample: the store step of `generate_fhir_claim` is an
append, not an upsert — storing a claim document twice for the key
`("Claim", "claim-1")` with different payloads leaves TWO rows under
that key, not exactly one. -/
theorem generate_claim_store_not_upsert_cex :
    (resourcesWithKey
      (store_generated_claim (store_generated_claim [] 1 (Json.str "payload-1")) 1
        (Json.str "payload-2"))
      "Claim" "claim-1").length ≠ 1 := by decide

/-- C1 (amended): storing a generated claim document twice for the same
key appends both rows: the number of stored documents under the key
grows by two, and the most recently stored row holds the latest
payload. -/
theorem store_generated_claim_appends_both
    (reg : List FHIRResource) (pid : Nat) (c1 c2 : Json) :
    (resourcesWithKey
        (store_generated_claim (store_generated_claim reg pid c1) pid c2)
        "Claim" ("claim-" ++ toString pid)).length
      = (resourcesWithKey reg "Claim" ("claim-" ++ toString pid)).length + 2 ∧
    (resourcesWithKey
        (store_generated_claim (store_generated_claim reg pid c1) pid c2)
        "Claim" ("claim-" ++ toString pid)).getLast? =
      some ⟨"Claim", "claim-" ++ toString pid, c2⟩ := by
  simp [store_generated_claim, resourcesWithKey, List.filter_append]

/-- C2: for a supported procedure type and an existing patient, when
the ledger step fails — whether `record_procedure_on_blockchain`
returns a failure dict or raises (`Except.error`, e.g. an unreachable
ledger) — `create_procedure` still returns the locally persisted row
with both ledger fields absent, with no exception past the endpoint. -/
theorem create_procedure_ledger_failure_returns_local
    (db : DB) (req : ProcedureCreate) (userId : Nat) (key now : String)
    (outcome : Except InitError BcResult)
    (hty : PROCEDURE_TYPES.contains req.procedure_type = true)
    (hpat : ∃ p, db.patients.find? (fun q => q.patient_hash == req.patient_hash) = some p)
    (hfail : (∃ e, outcome = Except.error e) ∨ (∃ m, outcome = Except.ok (BcResult.failure m))) :
    ∃ r, (create_procedure db req userId (some key) now outcome).2 = Except.ok r ∧
      r.blockchain_id = none ∧ r.blockchain_tx_hash = none := by
  obtain ⟨p, hp⟩ := hpat
  have hty2 : req.procedure_type ∈ PROCEDURE_TYPES := by simpa using hty
  rcases hfail with ⟨e, rfl⟩ | ⟨m, rfl⟩ <;>
    simp [create_procedure, hty2, hp]

/-- C2 witness: a concrete create with an unreachable ledger
(`ConnectionError` escaping the submit call) still yields a stored row
with no ledger fields. -/
theorem create_procedure_ledger_failure_returns_local_witness :
    ∃ r, (create_procedure
        ⟨[⟨1, "ph", none, none, none, "t0"⟩], [], 1⟩
        ⟨"ph", "stent", 45, "ch", none⟩ 1 (some "k") "t1"
        (Except.error InitError.connectionError)).2 = Except.ok r ∧
      r.blockchain_id = none ∧ r.blockchain_tx_hash = none :=
  create_procedure_ledger_failure_returns_local _ _ _ _ _ _
    (by decide) ⟨_, rfl⟩ (Or.inl ⟨_, rfl⟩)

/-- C3: for every (procedure, patient, practitioner) triple, the claim
document built by `create_fhir_claim` passes `validate_fhir_claim`
with `valid = true` and an empty error list. -/
theorem create_fhir_claim_validates (p : Procedure) (a : Patient) (r : User) :
    validate_fhir_claim (create_fhir_claim p a r) = some ⟨true, [], []⟩ := by
  cases hb : p.blockchain_tx_hash <;> cases hc : p.consent_hash <;>
    simp [validate_fhir_claim, create_fhir_claim, Json.get?, Json.hasKey, lookupKey,
      requiredClaimFields, validClaimStatuses, checkProcedureEntries, isTruthy, hb, hc]

/-- C4 counterexample: with the contract handle uninitialized and no
contract address configured, `record_procedure_on_blockchain` raises
the `ValueError` of its in-band `init_web3()` call (which runs BEFORE
the `try` block) instead of returning a failure value. -/
theorem record_procedure_uninitialized_raises :
    record_procedure_on_blockchain none ⟨none, false⟩ "ph" "stent" 45 "ch" "" "key"
      (Except.ok ⟨"0xabc", 42, 21000⟩) = Except.error InitError.valueError := rfl

/-- C4 (amended): once the contract handle is initialized,
`record_procedure_on_blockchain` never raises: it returns the success
value carrying the transaction hash, block number and gas used when
the transaction pipeline succeeds, and a failure value carrying the
exception message on any pipeline error. -/
theorem record_procedure_initialized_never_raises
    (contract : String) (env : W3Env)
    (patient_hash procedure_type : String) (duration : Int)
    (consent_hash metadata private_key : String)
    (pipeline : Except String TxReceipt) :
    record_procedure_on_blockchain (some contract) env patient_hash procedure_type
        duration consent_hash metadata private_key pipeline = Except.ok (runTx pipeline) ∧
    (∀ r, pipeline = Except.ok r →
      runTx pipeline = BcResult.success r.tx_hash r.block_number r.gas_used) ∧
    (∀ m, pipeline = Except.error m → runTx pipeline = BcResult.failure m) := by
  refine ⟨rfl, ?_, ?_⟩ <;> intro x h <;> rw [h] <;> rfl

/-- C4 witness: a concrete initialized submit returns the success
value and never the raising branch. -/
theorem record_procedure_initialized_never_raises_witness :
    (record_procedure_on_blockchain (some "0xC") ⟨some "0xC", true⟩ "ph" "stent" 45 "ch" "" "k"
        (Except.ok ⟨"0xabc", 42, 21000⟩) =
      Except.ok (runTx (Except.ok ⟨"0xabc", 42, 21000⟩))) ∧
    (∀ r, (Except.ok ⟨"0xabc", 42, 21000⟩ : Except String TxReceipt) = Except.ok r →
      runTx (Except.ok ⟨"0xabc", 42, 21000⟩) =
        BcResult.success r.tx_hash r.block_number r.gas_used) ∧
    (∀ m, (Except.ok ⟨"0xabc", 42, 21000⟩ : Except String TxReceipt) = Except.error m →
      runTx (Except.ok ⟨"0xabc", 42, 21000⟩) = BcResult.failure m) :=
  record_procedure_initialized_never_raises "0xC" ⟨some "0xC", true⟩ "ph" "stent" 45 "ch" "" "k"
    (Except.ok ⟨"0xabc", 42, 21000⟩)

/-- C5: the ledger-id correlation invariant — whenever
`blockchain_id` is non-null it equals the local `id` — is preserved by
`create_procedure` on every row of the resulting table and holds for
the returned record. -/
theorem create_procedure_blockchain_id_matches_local_id
    (db : DB) (req : ProcedureCreate) (userId : Nat)
    (private_key : Option String) (now : String)
    (outcome : Except InitError BcResult)
    (hdb : ∀ r ∈ db.procedures, bcIdInvariant r) :
    (∀ r ∈ (create_procedure db req userId private_key now outcome).1.procedures,
        bcIdInvariant r) ∧
    (∀ r, (create_procedure db req userId private_key now outcome).2 = Except.ok r →
        bcIdInvariant r) := by
  rcases create_procedure_cases db req userId private_key now outcome with
    ⟨e, heq⟩ | ⟨row, h1, h2, heq⟩ | ⟨row, h1, heq⟩
  · refine ⟨?_, ?_⟩
    · rw [heq]
      exact hdb
    · intro r hr
      rw [heq] at hr
      simp at hr
  · have hrowInv : bcIdInvariant row := by
      intro b hb
      rw [h1] at hb
      cases hb
    refine ⟨?_, ?_⟩
    · rw [heq]
      intro r hr
      rcases List.mem_append.mp hr with h | h
      · exact hdb r h
      · have : r = row := by simpa using h
        subst this
        exact hrowInv
    · intro r hr
      rw [heq] at hr
      have : row = r := by simpa using hr
      subst this
      exact hrowInv
  · have hrowInv : bcIdInvariant row := by
      intro b hb
      rw [h1] at hb
      injection hb with h
      rw [h]
    refine ⟨?_, ?_⟩
    · rw [heq]
      intro r hr
      rcases List.mem_append.mp hr with h | h
      · exact hdb r h
      · have : r = row := by simpa using h
        subst this
        exact hrowInv
    · intro r hr
      rw [heq] at hr
      have : row = r := by simpa using hr
      subst this
      exact hrowInv

/-- C5 witness: a concrete successful create, starting from an empty
table, keeps the correlation invariant on the stored table and on the
returned record. -/
theorem create_procedure_blockchain_id_matches_local_id_witness :
    (∀ r ∈ ((create_procedure ⟨[⟨1, "ph", none, none, none, "t0"⟩], [], 1⟩
        ⟨"ph", "stent", 45, "ch", none⟩ 1 (some "k") "t1"
        (Except.ok (BcResult.success "0xabc" 42 21000))).1.procedures),
      bcIdInvariant r) ∧
    (∀ r, (create_procedure ⟨[⟨1, "ph", none, none, none, "t0"⟩], [], 1⟩
        ⟨"ph", "stent", 45, "ch", none⟩ 1 (some "k") "t1"
        (Except.ok (BcResult.success "0xabc" 42 21000))).2 = Except.ok r →
      bcIdInvariant r) :=
  create_procedure_blockchain_id_matches_local_id _ _ _ _ _ _
    (by intro r hr; cases hr)

/-- C6: the coded-concept lookup depends only on the lowercased input
(case-insensitivity), and every procedure-type string whose lowercasing
is not a catalog key resolves to the fixed default triple
261190007 / Percutaneous puncture / SNOMED. -/
theorem get_snomed_code_case_insensitive_with_default :
    (∀ s t : String, pyLower s = pyLower t → get_snomed_code s = get_snomed_code t) ∧
    (∀ s : String, snomedGet (pyLower s) = none → get_snomed_code s = defaultSnomedCode) := by
  constructor
  · intro s t h
    unfold get_snomed_code
    rw [h]
  · intro s h
    unfold get_snomed_code
    rw [h]
    rfl

/-- C6 witness: an uppercase spelling of a catalog key resolves like
the key, and an unknown type resolves to the default triple. -/
theorem get_snomed_code_case_insensitive_with_default_witness :
    get_snomed_code "STENT" = get_snomed_code "stent" ∧
    get_snomed_code "foo" = defaultSnomedCode :=
  ⟨get_snomed_code_case_insensitive_with_default.1 "STENT" "stent" (by decide),
   get_snomed_code_case_insensitive_with_default.2 "foo" (by decide)⟩

/-- C7: the built claim carries the blockchain provenance extension in
`meta` exactly when the procedure row carries a (truthy) transaction
hash — and then its `valueString` is that hash — and carries the
`supportingInfo` consent entry exactly when the row carries a (truthy)
consent hash, with `valueString` equal to it. -/
theorem create_fhir_claim_provenance_and_consent_iff
    (p : Procedure) (a : Patient) (r : User) :
    ((metaExtensionValue (create_fhir_claim p a r)).isSome = isTruthy p.blockchain_tx_hash) ∧
    (metaExtensionValueString (create_fhir_claim p a r) =
      if isTruthy p.blockchain_tx_hash then p.blockchain_tx_hash else none) ∧
    ((create_fhir_claim p a r).hasKey "supportingInfo" = isTruthy p.consent_hash) ∧
    (supportingInfoValueString (create_fhir_claim p a r) =
      if isTruthy p.consent_hash then p.consent_hash else none) := by
  rcases hb : p.blockchain_tx_hash with _ | s <;>
    rcases hc : p.consent_hash with _ | t <;>
    first
      | (by_cases hs : s = "" <;> by_cases ht : t = "" <;>
          simp [create_fhir_claim, metaExtensionValue, metaExtensionValueString,
            supportingInfoValueString, Json.get?, Json.hasKey, lookupKey, isTruthy,
            hb, hc, hs, ht])
      | (by_cases hs : s = "" <;>
          simp [create_fhir_claim, metaExtensionValue, metaExtensionValueString,
            supportingInfoValueString, Json.get?, Json.hasKey, lookupKey, isTruthy,
            hb, hc, hs])
      | (by_cases ht : t = "" <;>
          simp [create_fhir_claim, metaExtensionValue, metaExtensionValueString,
            supportingInfoValueString, Json.get?, Json.hasKey, lookupKey, isTruthy,
            hb, hc, ht])
      | simp [create_fhir_claim, metaExtensionValue, metaExtensionValueString,
          supportingInfoValueString, Json.get?, Json.hasKey, lookupKey, isTruthy, hb, hc]

/-- C8: for the scenario row (type `stent`, duration 45, no consent
hash, no ledger fields), the built claim carries the coding
384692006 / Insertion of stent, no `supportingInfo` section, and no
blockchain provenance extension in `meta`. -/
theorem create_fhir_claim_stent_scenario :
    (firstProcedureCoding stentScenarioClaim).bind (fun k => k.get? "code") =
        some (Json.str "384692006") ∧
    (firstProcedureCoding stentScenarioClaim).bind (fun k => k.get? "display") =
        some (Json.str "Insertion of stent") ∧
    stentScenarioClaim.hasKey "supportingInfo" = false ∧
    metaExtensionValue stentScenarioClaim = none :=
  ⟨rfl, rfl, rfl, rfl⟩

/-- C9: when the procedure type is unsupported or the patient hash
matches no stored patient, `create_procedure` aborts with the
validation (400) or not-found (404) error and returns the database
state unchanged — no row is created, nothing is modified. -/
theorem create_procedure_error_path_no_write
    (db : DB) (req : ProcedureCreate) (userId : Nat)
    (private_key : Option String) (now : String)
    (outcome : Except InitError BcResult)
    (hbad : PROCEDURE_TYPES.contains req.procedure_type = false ∨
      db.patients.find? (fun q => q.patient_hash == req.patient_hash) = none) :
    (create_procedure db req userId private_key now outcome).1 = db ∧
    ((create_procedure db req userId private_key now outcome).2 =
        Except.error CreateError.invalidProcedureType ∨
      (create_procedure db req userId private_key now outcome).2 =
        Except.error CreateError.patientNotFound) := by
  rcases hbad with h | h
  · have h2 : req.procedure_type ∉ PROCEDURE_TYPES := by simpa using h
    simp [create_procedure, h2]
  · by_cases hty : req.procedure_type ∈ PROCEDURE_TYPES <;>
      simp [create_procedure, hty, h]

/-- C9 witness: a concrete request with an unsupported procedure type
aborts with an error and leaves the empty database unchanged. -/
theorem create_procedure_error_path_no_write_witness :
    (create_procedure ⟨[], [], 0⟩ ⟨"ph", "imagerie", 10, "ch", none⟩ 1 none "t"
        (Except.ok (BcResult.failure "x"))).1 = (⟨[], [], 0⟩ : DB) ∧
    ((create_procedure ⟨[], [], 0⟩ ⟨"ph", "imagerie", 10, "ch", none⟩ 1 none "t"
        (Except.ok (BcResult.failure "x"))).2 =
        Except.error CreateError.invalidProcedureType ∨
      (create_procedure ⟨[], [], 0⟩ ⟨"ph", "imagerie", 10, "ch", none⟩ 1 none "t"
        (Except.ok (BcResult.failure "x"))).2 =
        Except.error CreateError.patientNotFound) :=
  create_procedure_error_path_no_write _ _ _ _ _ _ (Or.inl (by decide))

/-- C10: `validate_fhir_claim` accepts any document carrying
`resourceType = "Claim"`, an id, a status from the allowed vocabulary,
and `type`, `patient` and `provider` members, even with the
`procedure`, `insurance`, `item` and `meta` sections entirely absent:
the per-entry checks only ever run over procedure entries that exist. -/
theorem validate_fhir_claim_minimal_document_valid (doc : Json)
    (hrt : doc.get? "resourceType" = some (Json.str "Claim"))
    (hid : doc.hasKey "id" = true)
    (hst : ∃ s, doc.get? "status" = some (Json.str s) ∧ validClaimStatuses.contains s = true)
    (hty : doc.hasKey "type" = true)
    (hpa : doc.hasKey "patient" = true)
    (hpr : doc.hasKey "provider" = true)
    (hproc : doc.get? "procedure" = none)
    (hins : doc.hasKey "insurance" = false)
    (hitem : doc.hasKey "item" = false)
    (hmeta : doc.hasKey "meta" = false) :
    validate_fhir_claim doc = some ⟨true, [], []⟩ := by
  obtain ⟨s, hs, hsv⟩ := hst
  cases doc with
  | obj kvs =>
    have h1 : Json.hasKey (Json.obj kvs) "resourceType" = true := by
      simp [Json.hasKey, hrt]
    have h2 : Json.hasKey (Json.obj kvs) "status" = true := by
      simp [Json.hasKey, hs]
    have hsv2 : s ∈ validClaimStatuses := by simpa using hsv
    simp [validate_fhir_claim, requiredClaimFields, h1, h2, hid, hty, hpa, hpr,
      hrt, hs, hsv2, hproc]
  | null => simp [Json.get?] at hrt
  | bool b => simp [Json.get?] at hrt
  | num n => simp [Json.get?] at hrt
  | str t => simp [Json.get?] at hrt
  | arr es => simp [Json.get?] at hrt

/-- C10 witness: a six-member document with no optional sections is
accepted with no errors. -/
theorem validate_fhir_claim_minimal_document_valid_witness :
    validate_fhir_claim (Json.obj
      [("resourceType", Json.str "Claim"), ("id", Json.str "claim-9"),
       ("status", Json.str "draft"), ("type", Json.obj []),
       ("patient", Json.obj []), ("provider", Json.obj [])]) =
      some ⟨true, [], []⟩ :=
  validate_fhir_claim_minimal_document_valid _ rfl rfl ⟨"draft", rfl, rfl⟩
    rfl rfl rfl rfl rfl rfl rfl

end RadiologyDapp
